import Mathlib

/-!
Shallow embedding of the Brain board diagnostics firmware
(`inputs.cpp`, `outputs.cpp`, `diagnostics.cpp`, `pots_and_buttons.cpp`).

Machine integers are modelled as `Nat` (all relevant quantities are
unsigned and stay far below their C widths; where a C unsigned
subtraction can wrap, the wrap is modelled explicitly modulo the width).
Timestamps (`absolute_time_t`) are microsecond counts modelled as `Nat`;
`absolute_time_diff_us from to` is `to - from` on a monotone clock.
DAC voltages (C `float`) are modelled as exact rationals: every constant
appearing in the code (`0.0f`, `5.0f`, `10.0f`, `0.02f`) is mapped to
the rational its source text denotes.  Side effects (DAC writes, pulse
GPIO writes, LED commands, console notifications) are modelled as an
explicit event list returned alongside the new state.
-/

namespace BrainDiag

/-- `Inputs::SelectedInput` (inputs.h). -/
inductive SelectedInput where
  | NONE
  | AUDIO_A
  | AUDIO_B
  | PULSE
deriving DecidableEq, Repr

/-- `Outputs::SelectedOutput` (outputs.h). -/
inductive SelectedOutput where
  | NONE
  | AUDIO_A
  | AUDIO_B
  | PULSE
deriving DecidableEq, Repr

/-- The two analog output channels (`brain::io::AudioCvOutChannel`). -/
inductive Channel where
  | A
  | B
deriving DecidableEq, Repr

/-- Observable side effects of the firmware: DAC voltage writes, coupling
changes, pulse GPIO writes, LED commands, and console notifications.
`selectionNotice` is the "Input selected:"/"Output selected:" printf,
`summaryNotice` is the "=== Configuration ===" printf emitted on button
release, `pulseNotice` the "[INPUT] Pulse state" printf, and
`couplingNotice` the "Coupling mode:" printf. -/
inductive Event where
  | setVoltage (ch : Channel) (v : ℚ)
  | setCoupling (ch : Channel) (ac : Bool)
  | setPulse (b : Bool)
  | ledOn (i : Nat)
  | ledOff (i : Nat)
  | ledOnAll
  | ledOffAll
  | ledSetBrightness (i : Nat) (v : Nat)
  | startupAnimation
  | selectionNotice
  | summaryNotice
  | pulseNotice
  | couplingNotice
  | voltagePrint
  | vuPrint
  | outputPulsePrint
deriving DecidableEq, Repr

/-- Recognizer for the one-time configuration summary notification. -/
def Event.isSummary : Event → Bool
  | .summaryNotice => true
  | _ => false

/-- Recognizer for selection-change notifications. -/
def Event.isSelectionNotice : Event → Bool
  | .selectionNotice => true
  | _ => false

/-! ## Selection mappers (`inputs.cpp` 96-112, `outputs.cpp` 125-141) -/

/-- `Inputs::map_pot_to_input_selection` (inputs.cpp 96-112): maps a pot
value 0-127 to an input selection. -/
def map_pot_to_input_selection (pot_value : Nat) : SelectedInput :=
  if pot_value = 0 then .NONE
  else if pot_value ≤ 42 then .AUDIO_A
  else if pot_value ≤ 84 then .AUDIO_B
  else .PULSE

/-- `Outputs::map_pot_to_output_selection` (outputs.cpp 125-141): maps a
pot value 0-127 to an output selection, same zones as the input mapper. -/
def map_pot_to_output_selection (pot_value : Nat) : SelectedOutput :=
  if pot_value = 0 then .NONE
  else if pot_value ≤ 42 then .AUDIO_A
  else if pot_value ≤ 84 then .AUDIO_B
  else .PULSE

/-! ## VU meter (`inputs.cpp` 172-224) -/

/-- `Inputs::VU_PEAK_HOLD_MS` (inputs.h): hold peaks for 100 ms. -/
def VU_PEAK_HOLD_MS : Nat := 100

/-- The peak-hold portion of the VU meter state of `Inputs`:
`vu_peak_hold_` (uint16) and `vu_peak_time_` (µs timestamp). -/
structure VuState where
  vu_peak_hold : Nat
  vu_peak_time : Nat
deriving DecidableEq, Repr

/-- Deviation of a raw ADC sample from the 2048 center, as computed by
`calculate_vu_level` (inputs.cpp 178-185): `|raw_adc - 2048|` over
`int32`, then cast to uint16 (no wrap for raw_adc < 67584). -/
def deviationOf (raw_adc : Nat) : Nat :=
  (((raw_adc : Int) - 2048).natAbs) % 65536

/-- Threshold quantization of the held peak into an LED count
(inputs.cpp 202-221). -/
def vuQuantize (peak : Nat) : Nat :=
  if peak < 170 then 0
  else if peak < 510 then 1
  else if peak < 850 then 2
  else if peak < 1190 then 3
  else if peak < 1530 then 4
  else if peak < 1870 then 5
  else 6

/-- Peak update step of `Inputs::calculate_vu_level` (inputs.cpp 184-200):
raise the peak (resetting the hold timestamp) when the current deviation
exceeds it, otherwise decay to the current deviation once more than
`VU_PEAK_HOLD_MS` milliseconds have elapsed since the peak was raised. -/
def vuPeakUpdate (raw_adc current_time : Nat) (s : VuState) : VuState :=
  let current_level := deviationOf raw_adc
  if current_level > s.vu_peak_hold then
    { vu_peak_hold := current_level, vu_peak_time := current_time }
  else
    let elapsed_ms := (current_time - s.vu_peak_time) / 1000
    if elapsed_ms > VU_PEAK_HOLD_MS then
      if s.vu_peak_hold > current_level then
        { s with vu_peak_hold := current_level }
      else s
    else s

/-- `Inputs::calculate_vu_level` (inputs.cpp 172-224): updates the
peak-hold state from the raw sample and current time, then quantizes the
held peak into an LED count 0-6. -/
def calculate_vu_level (raw_adc current_time : Nat) (s : VuState) :
    VuState × Nat :=
  let s' := vuPeakUpdate raw_adc current_time s
  (s', vuQuantize s'.vu_peak_hold)

/-! ## Inputs component state (`inputs.cpp`, inputs.h) -/

/-- Mutable state of the `Inputs` component (inputs.h): the selected
input, the VU peak-hold state, and the pulse state tracking. -/
structure InputsState where
  selected_input : SelectedInput
  vu_peak_hold : Nat
  vu_peak_time : Nat
  last_pulse_state : Bool
  pulse_state_initialized : Bool
deriving DecidableEq, Repr

/-- `Inputs::set_selected_input` (inputs.cpp 58-90): when the new
selection differs, install it, reset the VU peak hold to 0 with the
peak timestamp set to the current time, clear the pulse-initialized
flag, and print the change when requested; otherwise do nothing. -/
def set_selected_input (selected : SelectedInput) (print_change : Bool) (now : Nat)
    (s : InputsState) : InputsState × List Event :=
  if selected ≠ s.selected_input then
    ({ s with
        selected_input := selected
        vu_peak_hold := 0
        vu_peak_time := now
        pulse_state_initialized := false },
     if print_change then [Event.selectionNotice] else [])
  else (s, [])

/-- `Inputs::get_vu_meter_level` (inputs.cpp 114-134): returns 0 unless
an audio input is selected; otherwise feeds the selected channel's raw
ADC sample through `calculate_vu_level` and prints a diagnostic line. -/
def get_vu_meter_level (raw_a raw_b now : Nat) (s : InputsState) :
    InputsState × Nat × List Event :=
  if s.selected_input ≠ .AUDIO_A ∧ s.selected_input ≠ .AUDIO_B then (s, 0, [])
  else
    let raw_adc := if s.selected_input = .AUDIO_A then raw_a else raw_b
    let r := calculate_vu_level raw_adc now ⟨s.vu_peak_hold, s.vu_peak_time⟩
    ({ s with vu_peak_hold := r.1.vu_peak_hold, vu_peak_time := r.1.vu_peak_time },
     r.2, [Event.vuPrint])

/-- `Inputs::is_pulse_high` (inputs.cpp 136-155): returns the debounced
pulse state; when the pulse input is selected it tracks state changes in
`last_pulse_state_`/`pulse_state_initialized_` and prints on the first
read and on every change. -/
def is_pulse_high (current_state : Bool) (s : InputsState) :
    InputsState × List Event × Bool :=
  if s.selected_input = .PULSE then
    if ¬ s.pulse_state_initialized then
      ({ s with last_pulse_state := current_state, pulse_state_initialized := true },
       [Event.pulseNotice], current_state)
    else if current_state ≠ s.last_pulse_state then
      ({ s with last_pulse_state := current_state }, [Event.pulseNotice], current_state)
    else (s, [], current_state)
  else (s, [], current_state)

/-! ## Outputs component (`outputs.cpp`, outputs.h) -/

/-- `Outputs::WAVEFORM_PERIOD_MS` (outputs.h): 1 Hz = 1000 ms period. -/
def WAVEFORM_PERIOD_MS : Nat := 1000

/-- `Outputs::MIN_VOLTAGE` (outputs.h). -/
def MIN_VOLTAGE : ℚ := 0

/-- `Outputs::MAX_VOLTAGE` (outputs.h). -/
def MAX_VOLTAGE : ℚ := 10

/-- `Outputs::VOLTAGE_PRINT_INTERVAL_MS` (outputs.h). -/
def VOLTAGE_PRINT_INTERVAL_MS : Nat := 100

/-- Mutable state of the `Outputs` component (outputs.h): the selected
output, the coupling flag, and the waveform generation state. -/
structure OutputsState where
  selected_output : SelectedOutput
  ac_coupled : Bool
  waveform_start_time : Nat
  last_phase_ms : Nat
  pulse_state : Bool
  last_voltage_print_ms : Nat
deriving DecidableEq, Repr

/-- Waveform phase in milliseconds from the elapsed time in µs
(outputs.cpp 181-182 and 227-228): `(elapsed_us / 1000) % 1000`. -/
def wavePhase (elapsed_us : Nat) : Nat :=
  (elapsed_us / 1000) % WAVEFORM_PERIOD_MS

/-- Unclamped triangle voltage from the millisecond phase
(outputs.cpp 195-207): rising `phase_ms * 0.02` below 500 ms, falling
`10.0 - (phase_ms - 500) * 0.02` from 500 ms on.  The float constants
are modelled as the exact rationals their source text denotes. -/
def triangleVoltageRaw (phase_ms : Nat) : ℚ :=
  if phase_ms < 500 then (phase_ms : ℚ) * (2 / 100)
  else 10 - ((phase_ms - 500 : Nat) : ℚ) * (2 / 100)

/-- Clamping of the triangle voltage to `[MIN_VOLTAGE, MAX_VOLTAGE]`
(outputs.cpp 209-211). -/
def clampVoltage (v : ℚ) : ℚ :=
  let v1 := if v < MIN_VOLTAGE then MIN_VOLTAGE else v
  if MAX_VOLTAGE < v1 then MAX_VOLTAGE else v1

/-- Triangle voltage driven at a given elapsed time: phase extraction,
ramp, and clamp composed as in `Outputs::generate_triangle_wave`. -/
def triangleVoltageAt (elapsed_us : Nat) : ℚ :=
  clampVoltage (triangleVoltageRaw (wavePhase elapsed_us))

/-- `Outputs::generate_triangle_wave` (outputs.cpp 178-222): computes
the phase from the elapsed time, skips the render when the millisecond
phase is unchanged, otherwise drives the clamped triangle voltage on the
given channel and prints a throttled diagnostic line (the uint32
subtraction in the print throttle is modelled modulo 2^32). -/
def generate_triangle_wave (channel : Channel) (now : Nat) (s : OutputsState) :
    OutputsState × List Event :=
  let elapsed_us := now - s.waveform_start_time
  let phase_ms := wavePhase elapsed_us
  if phase_ms = s.last_phase_ms then (s, [])
  else
    let s1 := { s with last_phase_ms := phase_ms }
    let voltage := clampVoltage (triangleVoltageRaw phase_ms)
    if (phase_ms + 2 ^ 32 - s1.last_voltage_print_ms) % 2 ^ 32 ≥ VOLTAGE_PRINT_INTERVAL_MS then
      ({ s1 with last_voltage_print_ms := phase_ms },
       [Event.setVoltage channel voltage, Event.voltagePrint])
    else (s1, [Event.setVoltage channel voltage])

/-- High/low state of the square wave at a given millisecond phase
(outputs.cpp 231): high during the first half of the period. -/
def squareHigh (phase_ms : Nat) : Bool :=
  decide (phase_ms < 500)

/-- `Outputs::generate_square_wave` (outputs.cpp 224-239): computes the
phase from the elapsed time and re-drives the pulse output only when the
computed high/low state differs from the previously driven state. -/
def generate_square_wave (now : Nat) (s : OutputsState) : OutputsState × List Event :=
  let elapsed_us := now - s.waveform_start_time
  let phase_ms := wavePhase elapsed_us
  let new_state := squareHigh phase_ms
  if new_state ≠ s.pulse_state then
    ({ s with pulse_state := new_state },
     [Event.setPulse new_state, Event.outputPulsePrint])
  else (s, [])

/-- `Outputs::stop_all_outputs` (outputs.cpp 241-250): drives both audio
channels to 0 V when AC coupled or to mid-rail 5 V when DC coupled, and
forces the pulse output low. -/
def stop_all_outputs (s : OutputsState) : OutputsState × List Event :=
  let stop_voltage : ℚ := if s.ac_coupled then 0 else 5
  ({ s with pulse_state := false },
   [Event.setVoltage .A stop_voltage, Event.setVoltage .B stop_voltage,
    Event.setPulse false])

/-- `Outputs::set_selected_output` (outputs.cpp 85-119): when the new
selection differs, stop all outputs first, install the selection, reset
the waveform start time to now, zero the last rendered phase, force the
pulse state low, and print the change when requested; otherwise do
nothing. -/
def set_selected_output (selected : SelectedOutput) (print_change : Bool) (now : Nat)
    (s : OutputsState) : OutputsState × List Event :=
  if selected ≠ s.selected_output then
    let p := stop_all_outputs s
    let s2 := { p.1 with
                  selected_output := selected
                  waveform_start_time := now
                  last_phase_ms := 0
                  pulse_state := false }
    (s2, p.2 ++ if print_change then [Event.selectionNotice] else [])
  else (s, [])

/-- `Outputs::set_ac_coupling` (outputs.cpp 143-157): when the coupling
flag changes, install it and push the new coupling to both channels. -/
def set_ac_coupling (use_ac_coupling : Bool) (s : OutputsState) :
    OutputsState × List Event :=
  if use_ac_coupling ≠ s.ac_coupled then
    ({ s with ac_coupled := use_ac_coupling },
     [Event.setCoupling .A use_ac_coupling, Event.setCoupling .B use_ac_coupling,
      Event.couplingNotice])
  else (s, [])

/-- `Outputs::update` (outputs.cpp 60-83): generates the waveform for
the selected output, or nothing when no output is selected. -/
def outputs_update (now : Nat) (s : OutputsState) : OutputsState × List Event :=
  match s.selected_output with
  | .NONE => (s, [])
  | .AUDIO_A => generate_triangle_wave .A now s
  | .AUDIO_B => generate_triangle_wave .B now s
  | .PULSE => generate_square_wave now s

/-! ## Pots and buttons (`pots_and_buttons.cpp`) -/

/-- Modelled from the spec: `brain::ui::NO_OF_LEDS` comes from the
external Brain SDK and is not under src/; the spec fixes six indicator
slots (display resolution 6, "up to 6 slots covering
input-A/input-B/input-digital/output-A/output-B/output-digital"). -/
def NO_OF_LEDS : Nat := 6

/-- `PotsAndButtons::map_pot_to_leds` (pots_and_buttons.cpp 96-113):
maps the cached value of pot `pot_index` from 0-127 to 0-6 LEDs with
rounding, clamped to 6; out-of-range indices yield 0. -/
def map_pot_to_leds (pot0 pot1 pot2 pot_index : Nat) : Nat :=
  if pot_index ≥ 3 then 0
  else
    let pot_value := if pot_index = 0 then pot0 else if pot_index = 1 then pot1 else pot2
    let num_leds := (pot_value * 6 + 63) / 127
    if num_leds > 6 then 6 else num_leds

/-! ## Diagnostics controller (`diagnostics.cpp`, src/unnamed/part_001) -/

/-- `Diagnostics::State` (diagnostics.h). -/
inductive DiagState where
  | LED_STARTUP_ANIMATION
  | LED_BRIGHTNESS_TEST
  | INTERACTIVE_MODE
deriving DecidableEq, Repr

/-- Rank of a controller state in the one-directional progression. -/
def DiagState.rank : DiagState → Nat
  | .LED_STARTUP_ANIMATION => 0
  | .LED_BRIGHTNESS_TEST => 1
  | .INTERACTIVE_MODE => 2

/-- Mutable state of the `Diagnostics` controller (diagnostics.h),
including its owned `Inputs` and `Outputs` components. -/
structure DiagnosticsState where
  current_state : DiagState
  current_led : Nat
  current_brightness_step : Nat
  last_update_time : Nat
  startup_animation_count : Nat
  both_buttons_held : Bool
  last_num_leds : Nat
  last_leds_all_on : Bool
  inputs : InputsState
  outputs : OutputsState
deriving DecidableEq, Repr

/-- Environment read by one controller cycle: the monotonic clock, the
debounced button states, the cached pot values, the raw ADC samples of
the two audio channels, and the debounced pulse input. -/
structure Env where
  now : Nat
  button1 : Bool
  button2 : Bool
  pot0 : Nat
  pot1 : Nat
  pot2 : Nat
  raw_adc_a : Nat
  raw_adc_b : Nat
  pulse_in : Bool
deriving DecidableEq, Repr

/-- `BRIGHTNESS_LEVELS` (diagnostics.cpp): the five-step brightness
ladder. -/
def BRIGHTNESS_LEVELS : List Nat := [51, 102, 153, 204, 255]

/-- `NUM_BRIGHTNESS_LEVELS` (diagnostics.cpp). -/
def NUM_BRIGHTNESS_LEVELS : Nat := 5

/-- `STARTUP_ANIMATION_DELAY` (diagnostics.cpp), in ms. -/
def STARTUP_ANIMATION_DELAY : Nat := 1000

/-- `BRIGHTNESS_TEST_DELAY` (diagnostics.cpp), in ms. -/
def BRIGHTNESS_TEST_DELAY : Nat := 500

/-- `Diagnostics::test_led_startup_animation` (diagnostics.cpp 102-122):
every `STARTUP_ANIMATION_DELAY` ms trigger one animation cycle; after
the third cycle advance to the brightness test. -/
def test_led_startup_animation (env : Env) (d : DiagnosticsState) :
    DiagnosticsState × List Event :=
  let elapsed_ms := (env.now - d.last_update_time) / 1000
  if elapsed_ms ≥ STARTUP_ANIMATION_DELAY then
    let cnt := d.startup_animation_count + 1
    if cnt ≥ 3 then
      ({ d with
          startup_animation_count := cnt
          current_state := .LED_BRIGHTNESS_TEST
          current_led := 0
          current_brightness_step := 0
          last_update_time := env.now },
       [Event.startupAnimation])
    else
      ({ d with startup_animation_count := cnt, last_update_time := env.now },
       [Event.startupAnimation])
  else (d, [])

/-- `Diagnostics::test_led_brightness` (diagnostics.cpp 124-179): every
`BRIGHTNESS_TEST_DELAY` ms step the current LED through the brightness
ladder; when the ladder completes, turn that LED off and advance to the
next; when all LEDs are swept, turn everything off and enter interactive
mode. -/
def test_led_brightness (env : Env) (d : DiagnosticsState) :
    DiagnosticsState × List Event :=
  let elapsed_ms := (env.now - d.last_update_time) / 1000
  if elapsed_ms ≥ BRIGHTNESS_TEST_DELAY then
    let brightness_value := BRIGHTNESS_LEVELS.getD d.current_brightness_step 0
    let step' := d.current_brightness_step + 1
    if step' ≥ NUM_BRIGHTNESS_LEVELS then
      let led' := d.current_led + 1
      if led' ≥ NO_OF_LEDS then
        ({ d with
            current_brightness_step := 0
            current_led := led'
            current_state := .INTERACTIVE_MODE
            last_update_time := env.now },
         [Event.ledSetBrightness d.current_led brightness_value,
          Event.ledOff d.current_led, Event.ledOffAll])
      else
        ({ d with
            current_brightness_step := 0
            current_led := led'
            last_update_time := env.now },
         [Event.ledSetBrightness d.current_led brightness_value,
          Event.ledOff d.current_led])
    else
      ({ d with current_brightness_step := step', last_update_time := env.now },
       [Event.ledSetBrightness d.current_led brightness_value])
  else (d, [])

/-- LED bar render loop used by the interactive display paths
(diagnostics.cpp 291-297 and 314-320): light the first `n` of the
`NO_OF_LEDS` indicators, turn off the rest. -/
def ledBar (n : Nat) : List Event :=
  (List.range NO_OF_LEDS).map (fun i => if i < n then Event.ledOn i else Event.ledOff i)

/-- Highest-valued pot scan of
`Diagnostics::update_leds_from_pots_and_buttons` (diagnostics.cpp
274-283): the loop keeps the first index attaining the strict maximum,
starting from index 0 and value 0. -/
def maxPotSelect (p0 p1 p2 : Nat) : Nat × Nat :=
  let a := if p0 > 0 then ((0 : Nat), p0) else (0, 0)
  let b := if p1 > a.2 then ((1 : Nat), p1) else a
  if p2 > b.2 then (2, p2) else b

/-- `Diagnostics::update_leds_from_pots_and_buttons` (diagnostics.cpp
260-301): any pressed button forces all LEDs on; otherwise the highest
pot value is mapped to an LED count, re-rendered only on change. -/
def update_leds_from_pots_and_buttons (env : Env) (d : DiagnosticsState) :
    DiagnosticsState × List Event :=
  if env.button1 || env.button2 then
    if ¬ d.last_leds_all_on then
      ({ d with last_leds_all_on := true, last_num_leds := 255 }, [Event.ledOnAll])
    else (d, [])
  else
    let m := maxPotSelect env.pot0 env.pot1 env.pot2
    let num_leds := map_pot_to_leds env.pot0 env.pot1 env.pot2 m.1
    if num_leds ≠ d.last_num_leds ∨ d.last_leds_all_on then
      ({ d with last_num_leds := num_leds, last_leds_all_on := false }, ledBar num_leds)
    else (d, [])

/-- `Diagnostics::handle_input_testing` (diagnostics.cpp 303-341):
renders the VU meter for an audio input or the pulse state for the
pulse input, re-rendering only on change. -/
def handle_input_testing (env : Env) (d : DiagnosticsState) :
    DiagnosticsState × List Event :=
  let selected := d.inputs.selected_input
  if selected = .AUDIO_A ∨ selected = .AUDIO_B then
    let r := get_vu_meter_level env.raw_adc_a env.raw_adc_b env.now d.inputs
    let d1 := { d with inputs := r.1 }
    let vu_level := r.2.1
    if vu_level ≠ d1.last_num_leds ∨ d1.last_leds_all_on then
      ({ d1 with last_num_leds := vu_level, last_leds_all_on := false },
       r.2.2 ++ ledBar vu_level)
    else (d1, r.2.2)
  else if selected = .PULSE then
    let r := is_pulse_high env.pulse_in d.inputs
    let d1 := { d with inputs := r.1 }
    let pulse_high := r.2.2
    if pulse_high ≠ d1.last_leds_all_on then
      if pulse_high then
        ({ d1 with last_leds_all_on := true, last_num_leds := 255 },
         r.2.1 ++ [Event.ledOnAll])
      else
        ({ d1 with last_leds_all_on := false, last_num_leds := 0 },
         r.2.1 ++ [Event.ledOffAll])
    else (d1, r.2.1)
  else (d, [])

/-- `Diagnostics::update_coupling_from_pot` (diagnostics.cpp 343-351):
pot values at or above 64 select AC coupling, below 64 DC coupling. -/
def update_coupling_from_pot (pot2 : Nat) (o : OutputsState) :
    OutputsState × List Event :=
  set_ac_coupling (decide (pot2 ≥ 64)) o

/-- `Diagnostics::show_status_display` (diagnostics.cpp 353-407): one
indicator per channel slot, lit iff the slot matches the current
selections. -/
def show_status_display (i : InputsState) (o : OutputsState) : List Event :=
  [if i.selected_input = .AUDIO_A then Event.ledOn 0 else Event.ledOff 0,
   if i.selected_input = .AUDIO_B then Event.ledOn 1 else Event.ledOff 1,
   if i.selected_input = .PULSE then Event.ledOn 2 else Event.ledOff 2,
   if o.selected_output = .AUDIO_A then Event.ledOn 3 else Event.ledOff 3,
   if o.selected_output = .AUDIO_B then Event.ledOn 4 else Event.ledOff 4,
   if o.selected_output = .PULSE then Event.ledOn 5 else Event.ledOff 5]

/-- `Diagnostics::interactive_mode` (diagnostics.cpp 181-258): update
the components, then either run selection mode (both buttons held),
emit the one-time configuration summary on the release edge, or render
the selected input / default pot display. -/
def interactive_mode (env : Env) (d : DiagnosticsState) :
    DiagnosticsState × List Event :=
  let u := outputs_update env.now d.outputs
  let d0 := { d with outputs := u.1 }
  let both_held := env.button1 && env.button2
  if both_held then
    let ri :=
      if env.pot0 > 0 then
        set_selected_input (map_pot_to_input_selection env.pot0) false env.now d0.inputs
      else (d0.inputs, [])
    let ro :=
      if env.pot1 > 0 then
        set_selected_output (map_pot_to_output_selection env.pot1) false env.now d0.outputs
      else (d0.outputs, [])
    let rc :=
      if env.pot2 > 5 then update_coupling_from_pot env.pot2 ro.1 else (ro.1, [])
    let status := show_status_display ri.1 rc.1
    ({ d0 with inputs := ri.1, outputs := rc.1, both_buttons_held := true },
     u.2 ++ ri.2 ++ ro.2 ++ rc.2 ++ status)
  else
    let r1 :=
      if d0.both_buttons_held then
        ({ d0 with last_num_leds := 0, last_leds_all_on := false, both_buttons_held := false },
         [Event.summaryNotice, Event.ledOffAll])
      else (d0, [])
    let d1 := r1.1
    if d1.inputs.selected_input ≠ SelectedInput.NONE then
      let r2 := handle_input_testing env d1
      (r2.1, u.2 ++ r1.2 ++ r2.2)
    else
      let r2 := update_leds_from_pots_and_buttons env d1
      (r2.1, u.2 ++ r1.2 ++ r2.2)

/-- `Diagnostics::update` (diagnostics.cpp 85-100): one cycle of the
controller state machine. -/
def update (env : Env) (d : DiagnosticsState) : DiagnosticsState × List Event :=
  match d.current_state with
  | .LED_STARTUP_ANIMATION => test_led_startup_animation env d
  | .LED_BRIGHTNESS_TEST => test_led_brightness env d
  | .INTERACTIVE_MODE => interactive_mode env d

/-- Iterated VU peak updates over a sequence of (raw sample, time)
pairs, as produced by calling `calculate_vu_level` once per cycle. -/
def vuRun (samples : List (Nat × Nat)) (s : VuState) : VuState :=
  samples.foldl (fun st p => vuPeakUpdate p.1 p.2 st) s

/-- Number of pulse GPIO writes in an event list. -/
def countPulseDrives (events : List Event) : Nat :=
  events.countP (fun e => match e with | Event.setPulse _ => true | _ => false)

/-- Iterated square wave generation over a sequence of poll times, as
produced by calling `Outputs::update` once per cycle with the pulse
output selected. -/
def squareWaveRun (s : OutputsState) : List Nat → OutputsState × List Event
  | [] => (s, [])
  | t :: ts =>
    let r := generate_square_wave t s
    let rest := squareWaveRun r.1 ts
    (rest.1, r.2 ++ rest.2)

/-! ## Theorems -/

/-- Claim C1: for every control value v in [0, 127], the selection
mappers are total and partition the range with no gap or overlap:
v = 0 maps to NONE, 1-42 to CHANNEL_A/AUDIO_A, 43-84 to
CHANNEL_B/AUDIO_B, 85-127 to DIGITAL/PULSE, and every v falls in
exactly one of the four zones. -/
theorem selection_mappers_partition (v : Nat) (h : v ≤ 127) :
    (v = 0 → map_pot_to_input_selection v = SelectedInput.NONE ∧
      map_pot_to_output_selection v = SelectedOutput.NONE) ∧
    (1 ≤ v ∧ v ≤ 42 → map_pot_to_input_selection v = SelectedInput.AUDIO_A ∧
      map_pot_to_output_selection v = SelectedOutput.AUDIO_A) ∧
    (43 ≤ v ∧ v ≤ 84 → map_pot_to_input_selection v = SelectedInput.AUDIO_B ∧
      map_pot_to_output_selection v = SelectedOutput.AUDIO_B) ∧
    (85 ≤ v ∧ v ≤ 127 → map_pot_to_input_selection v = SelectedInput.PULSE ∧
      map_pot_to_output_selection v = SelectedOutput.PULSE) ∧
    (v = 0 ∨ (1 ≤ v ∧ v ≤ 42) ∨ (43 ≤ v ∧ v ≤ 84) ∨ (85 ≤ v ∧ v ≤ 127)) ∧
    (¬ (v = 0 ∧ 1 ≤ v)) ∧ (¬ (v ≤ 42 ∧ 43 ≤ v)) ∧ (¬ (v ≤ 84 ∧ 85 ≤ v)) := by
  refine ⟨?_, ?_, ?_, ?_, by omega, by omega, by omega, by omega⟩ <;>
    (intro hv
     simp only [map_pot_to_input_selection, map_pot_to_output_selection]
     split_ifs <;> first | exact ⟨rfl, rfl⟩ | omega)

/-- Witness for `selection_mappers_partition` at v = 50. -/
theorem selection_mappers_partition_witness :
    map_pot_to_input_selection 50 = SelectedInput.AUDIO_B ∧
    map_pot_to_output_selection 50 = SelectedOutput.AUDIO_B :=
  (selection_mappers_partition 50 (by decide)).2.2.1 (by decide)

/-- Threshold quantization facts about `vuQuantize`. -/
theorem vuQuantize_spec (p : Nat) :
    vuQuantize p ≤ 6 ∧
    (p < 170 → vuQuantize p = 0) ∧
    (170 ≤ p → p < 510 → vuQuantize p = 1) ∧
    (510 ≤ p → p < 850 → vuQuantize p = 2) ∧
    (850 ≤ p → p < 1190 → vuQuantize p = 3) ∧
    (1190 ≤ p → p < 1530 → vuQuantize p = 4) ∧
    (1530 ≤ p → p < 1870 → vuQuantize p = 5) ∧
    (1870 ≤ p → vuQuantize p = 6) := by
  unfold vuQuantize
  split_ifs <;> omega

/-- Claim C9: for every raw 12-bit sample in [0, 4095] and every
peak-hold state, `calculate_vu_level` returns an integer level in
[0, 6], obtained by mapping the (possibly held) peak through the fixed
thresholds 170, 510, 850, 1190, 1530, 1870. -/
theorem vu_level_quantization (raw_adc current_time : Nat) (s : VuState)
    (_h : raw_adc ≤ 4095) :
    (calculate_vu_level raw_adc current_time s).2 ≤ 6 ∧
    ((calculate_vu_level raw_adc current_time s).1.vu_peak_hold < 170 →
      (calculate_vu_level raw_adc current_time s).2 = 0) ∧
    (170 ≤ (calculate_vu_level raw_adc current_time s).1.vu_peak_hold →
      (calculate_vu_level raw_adc current_time s).1.vu_peak_hold < 510 →
      (calculate_vu_level raw_adc current_time s).2 = 1) ∧
    (510 ≤ (calculate_vu_level raw_adc current_time s).1.vu_peak_hold →
      (calculate_vu_level raw_adc current_time s).1.vu_peak_hold < 850 →
      (calculate_vu_level raw_adc current_time s).2 = 2) ∧
    (850 ≤ (calculate_vu_level raw_adc current_time s).1.vu_peak_hold →
      (calculate_vu_level raw_adc current_time s).1.vu_peak_hold < 1190 →
      (calculate_vu_level raw_adc current_time s).2 = 3) ∧
    (1190 ≤ (calculate_vu_level raw_adc current_time s).1.vu_peak_hold →
      (calculate_vu_level raw_adc current_time s).1.vu_peak_hold < 1530 →
      (calculate_vu_level raw_adc current_time s).2 = 4) ∧
    (1530 ≤ (calculate_vu_level raw_adc current_time s).1.vu_peak_hold →
      (calculate_vu_level raw_adc current_time s).1.vu_peak_hold < 1870 →
      (calculate_vu_level raw_adc current_time s).2 = 5) ∧
    (1870 ≤ (calculate_vu_level raw_adc current_time s).1.vu_peak_hold →
      (calculate_vu_level raw_adc current_time s).2 = 6) := by
  have hq := vuQuantize_spec (vuPeakUpdate raw_adc current_time s).vu_peak_hold
  simpa only [calculate_vu_level] using hq

/-- Witness for `vu_level_quantization` at a concrete sample. -/
theorem vu_level_quantization_witness :
    (calculate_vu_level 3000 0 ⟨0, 0⟩).2 ≤ 6 ∧
    (calculate_vu_level 3000 0 ⟨0, 0⟩).2 = 3 := by
  have h := vu_level_quantization 3000 0 ⟨0, 0⟩ (by decide)
  exact ⟨h.1, h.2.2.2.2.1 (by decide) (by decide)⟩

/-- Claim C2: one step of the level meter computes the deviation
|sample - 2048| and (a) raises the peak and resets the hold timer when
the deviation exceeds the stored peak, (b) lets the peak fall to the
current deviation once the 100 ms hold interval has elapsed since the
peak was last raised, (c) leaves the peak unchanged inside the hold
window; consequently a transient spike is held for at least the hold
interval after the sample drops, and once the hold interval has elapsed
the reported level is the one implied by |sample - 2048|. -/
theorem vu_peak_hold_semantics (raw_adc current_time : Nat) (s : VuState) :
    (deviationOf raw_adc > s.vu_peak_hold →
      vuPeakUpdate raw_adc current_time s = ⟨deviationOf raw_adc, current_time⟩) ∧
    (deviationOf raw_adc ≤ s.vu_peak_hold →
      (current_time - s.vu_peak_time) / 1000 > VU_PEAK_HOLD_MS →
      vuPeakUpdate raw_adc current_time s = ⟨deviationOf raw_adc, s.vu_peak_time⟩) ∧
    (deviationOf raw_adc ≤ s.vu_peak_hold →
      (current_time - s.vu_peak_time) / 1000 ≤ VU_PEAK_HOLD_MS →
      vuPeakUpdate raw_adc current_time s = s) ∧
    (∀ samples : List (Nat × Nat),
      (∀ p ∈ samples, deviationOf p.1 ≤ s.vu_peak_hold ∧
        (p.2 - s.vu_peak_time) / 1000 ≤ VU_PEAK_HOLD_MS) →
      vuRun samples s = s) ∧
    ((current_time - s.vu_peak_time) / 1000 > VU_PEAK_HOLD_MS →
      (calculate_vu_level raw_adc current_time s).2 =
        vuQuantize (deviationOf raw_adc)) := by
  have step_frozen : ∀ r t, deviationOf r ≤ s.vu_peak_hold →
      (t - s.vu_peak_time) / 1000 ≤ VU_PEAK_HOLD_MS →
      vuPeakUpdate r t s = s := by
    intro r t h1 h2
    simp only [vuPeakUpdate]
    rw [if_neg (by omega), if_neg (by omega)]
  refine ⟨?_, ?_, ?_, ?_, ?_⟩
  · intro h1
    simp only [vuPeakUpdate]
    rw [if_pos h1]
  · intro h1 h2
    simp only [vuPeakUpdate]
    rw [if_neg (by omega), if_pos h2]
    rcases Nat.lt_or_ge (deviationOf raw_adc) s.vu_peak_hold with hlt | hge
    · rw [if_pos hlt]
    · have hd : deviationOf raw_adc = s.vu_peak_hold := by omega
      rw [if_neg (by omega), hd]
  · exact step_frozen raw_adc current_time
  · intro samples hall
    induction samples with
    | nil => rfl
    | cons p ps ih =>
        have h1 := hall p (List.mem_cons_self p ps)
        have hstep : vuPeakUpdate p.1 p.2 s = s := step_frozen p.1 p.2 h1.1 h1.2
        simp only [vuRun, List.foldl_cons, hstep]
        exact ih (fun q hq => hall q (List.mem_cons_of_mem p hq))
  · intro h2
    simp only [calculate_vu_level]
    rcases Nat.lt_or_ge s.vu_peak_hold (deviationOf raw_adc) with hlt | hge
    · simp only [vuPeakUpdate]
      rw [if_pos hlt]
    · rcases Nat.lt_or_ge (deviationOf raw_adc) s.vu_peak_hold with hlt2 | hge2
      · simp only [vuPeakUpdate]
        rw [if_neg (by omega), if_pos h2, if_pos hlt2]
      · have hd : deviationOf raw_adc = s.vu_peak_hold := by omega
        simp only [vuPeakUpdate]
        rw [if_neg (by omega), if_pos h2, if_neg (by omega), hd]

/-- Witness for `vu_peak_hold_semantics`: a spike to deviation 952 is
raised immediately, and two later in-window samples leave it held. -/
theorem vu_peak_hold_semantics_witness :
    vuPeakUpdate 3000 0 ⟨0, 0⟩ = ⟨952, 0⟩ ∧
    vuRun [(2048, 50000), (2100, 100000)] ⟨952, 0⟩ = ⟨952, 0⟩ :=
  ⟨(vu_peak_hold_semantics 3000 0 ⟨0, 0⟩).1 (by decide),
   (vu_peak_hold_semantics 3000 0 ⟨952, 0⟩).2.2.2.1
     [(2048, 50000), (2100, 100000)] (by decide)⟩

/-- Range of the clamped voltage. -/
theorem clampVoltage_mem (v : ℚ) : 0 ≤ clampVoltage v ∧ clampVoltage v ≤ 10 := by
  simp only [clampVoltage, MIN_VOLTAGE, MAX_VOLTAGE]
  split_ifs <;> constructor <;> linarith

/-- Claim C3: the analog triangle waveform has period 1000 ms with
phase elapsed_ms mod 1000; at phase 0 the output is 0 V, at 250 ms it
is 5 V, at 500 ms it is 10 V, at 750 ms it is 5 V, and for every phase
the output lies within [0 V, 10 V]. -/
theorem triangle_wave_shape (elapsed_us : Nat) :
    wavePhase elapsed_us = (elapsed_us / 1000) % 1000 ∧
    (wavePhase elapsed_us = 0 → triangleVoltageAt elapsed_us = 0) ∧
    (wavePhase elapsed_us = 250 → triangleVoltageAt elapsed_us = 5) ∧
    (wavePhase elapsed_us = 500 → triangleVoltageAt elapsed_us = 10) ∧
    (wavePhase elapsed_us = 750 → triangleVoltageAt elapsed_us = 5) ∧
    0 ≤ triangleVoltageAt elapsed_us ∧ triangleVoltageAt elapsed_us ≤ 10 := by
  refine ⟨rfl, ?_, ?_, ?_, ?_, (clampVoltage_mem _).1, (clampVoltage_mem _).2⟩ <;>
    (intro hp
     simp only [triangleVoltageAt, hp]
     norm_num [triangleVoltageRaw, clampVoltage, MIN_VOLTAGE, MAX_VOLTAGE])

/-- Witness for `triangle_wave_shape` at the quarter-period point. -/
theorem triangle_wave_shape_witness :
    triangleVoltageAt 250000 = 5 ∧ 0 ≤ triangleVoltageAt 250000 :=
  ⟨(triangle_wave_shape 250000).2.2.1 (by decide),
   (triangle_wave_shape 250000).2.2.2.2.2.1⟩

/-- Claim C5: switching to a different selection resets the owning
side's meter/waveform state before the next render:
`set_selected_input` zeroes the VU peak hold, resets the peak-hold
timestamp and clears the pulse-state-initialized flag, while
`set_selected_output` resets the waveform start time, zeroes the last
rendered phase and forces the pulse state low. -/
theorem selection_change_resets
    (si : SelectedInput) (so : SelectedOutput) (pci pco : Bool) (now : Nat)
    (i : InputsState) (o : OutputsState)
    (hi : si ≠ i.selected_input) (ho : so ≠ o.selected_output) :
    ((set_selected_input si pci now i).1.vu_peak_hold = 0 ∧
     (set_selected_input si pci now i).1.vu_peak_time = now ∧
     (set_selected_input si pci now i).1.pulse_state_initialized = false ∧
     (set_selected_input si pci now i).1.selected_input = si) ∧
    ((set_selected_output so pco now o).1.waveform_start_time = now ∧
     (set_selected_output so pco now o).1.last_phase_ms = 0 ∧
     (set_selected_output so pco now o).1.pulse_state = false ∧
     (set_selected_output so pco now o).1.selected_output = so) := by
  constructor
  · simp [set_selected_input, hi]
  · simp [set_selected_output, stop_all_outputs, ho]

/-- Witness for `selection_change_resets` on concrete states. -/
theorem selection_change_resets_witness :
    ((set_selected_input SelectedInput.AUDIO_A true 7
        ⟨SelectedInput.NONE, 900, 3, true, true⟩).1.vu_peak_hold = 0) ∧
    ((set_selected_output SelectedOutput.PULSE true 7
        ⟨SelectedOutput.NONE, false, 3, 5, true, 9⟩).1.last_phase_ms = 0) := by
  have h := selection_change_resets SelectedInput.AUDIO_A SelectedOutput.PULSE
    true true 7 ⟨SelectedInput.NONE, 900, 3, true, true⟩
    ⟨SelectedOutput.NONE, false, 3, 5, true, 9⟩ (by decide) (by decide)
  exact ⟨h.1.1, h.2.2.1⟩

/-- Claim C6: on every output selection change the two analog channels
are first forced to the safe resting value (5 V mid-rail in DC
coupling, 0 V in AC coupling) and the digital pulse output is forced
low, before anything else happens for the new selection. -/
theorem selection_change_safe_outputs (so : SelectedOutput) (pc : Bool) (now : Nat)
    (o : OutputsState) (ho : so ≠ o.selected_output) :
    (set_selected_output so pc now o).2.take 3 =
      [Event.setVoltage Channel.A (if o.ac_coupled then 0 else 5),
       Event.setVoltage Channel.B (if o.ac_coupled then 0 else 5),
       Event.setPulse false] ∧
    (set_selected_output so pc now o).1.pulse_state = false := by
  have h2 : (set_selected_output so pc now o).2 =
      [Event.setVoltage Channel.A (if o.ac_coupled then 0 else 5),
       Event.setVoltage Channel.B (if o.ac_coupled then 0 else 5),
       Event.setPulse false] ++ (if pc then [Event.selectionNotice] else []) := by
    simp [set_selected_output, stop_all_outputs, ho]
  refine ⟨?_, by simp [set_selected_output, stop_all_outputs, ho]⟩
  rw [h2]
  cases pc <;> rfl

/-- Witness for `selection_change_safe_outputs`: a DC-coupled output
switch rests both channels at 5 V. -/
theorem selection_change_safe_outputs_witness :
    (set_selected_output SelectedOutput.AUDIO_A true 7
        ⟨SelectedOutput.NONE, false, 3, 5, true, 9⟩).2.take 3 =
      [Event.setVoltage Channel.A 5, Event.setVoltage Channel.B 5,
       Event.setPulse false] :=
  (selection_change_safe_outputs SelectedOutput.AUDIO_A true 7
    ⟨SelectedOutput.NONE, false, 3, 5, true, 9⟩ (by decide)).1

/-- Claim C10: re-applying the current selection is a no-op on both
sides: state is unchanged, no notification or output action is
emitted. -/
theorem reapply_selection_noop (si : SelectedInput) (so : SelectedOutput)
    (pci pco : Bool) (now : Nat) (i : InputsState) (o : OutputsState)
    (hi : si = i.selected_input) (ho : so = o.selected_output) :
    set_selected_input si pci now i = (i, []) ∧
    set_selected_output so pco now o = (o, []) := by
  constructor
  · simp [set_selected_input, hi]
  · simp [set_selected_output, ho]

/-- Witness for `reapply_selection_noop` on concrete states. -/
theorem reapply_selection_noop_witness :
    set_selected_input SelectedInput.AUDIO_B true 42
        ⟨SelectedInput.AUDIO_B, 900, 3, true, true⟩ =
      (⟨SelectedInput.AUDIO_B, 900, 3, true, true⟩, []) ∧
    set_selected_output SelectedOutput.PULSE true 42
        ⟨SelectedOutput.PULSE, true, 3, 5, true, 9⟩ =
      (⟨SelectedOutput.PULSE, true, 3, 5, true, 9⟩, []) :=
  reapply_selection_noop SelectedInput.AUDIO_B SelectedOutput.PULSE true true 42
    ⟨SelectedInput.AUDIO_B, 900, 3, true, true⟩
    ⟨SelectedOutput.PULSE, true, 3, 5, true, 9⟩ rfl rfl

/-- Branch-free form of one square wave step: the pulse is re-driven
exactly when the computed state differs from the previously driven
state. -/
theorem generate_square_wave_eq (now : Nat) (s : OutputsState) :
    generate_square_wave now s =
      if squareHigh (wavePhase (now - s.waveform_start_time)) = s.pulse_state
      then (s, [])
      else ({ s with pulse_state := squareHigh (wavePhase (now - s.waveform_start_time)) },
            [Event.setPulse (squareHigh (wavePhase (now - s.waveform_start_time))),
             Event.outputPulsePrint]) := by
  simp only [generate_square_wave]
  by_cases h : squareHigh (wavePhase (now - s.waveform_start_time)) = s.pulse_state
  · rw [if_neg (fun hn => hn h), if_pos h]
  · rw [if_pos h, if_neg h]

/-- Additivity of the pulse drive count over appended event lists. -/
theorem countPulseDrives_append (a b : List Event) :
    countPulseDrives (a ++ b) = countPulseDrives a + countPulseDrives b := by
  simp [countPulseDrives]

/-- During the low half of a period, a run starting with the pulse
already low drives nothing. -/
theorem squareRun_low_zero (k : Nat) (ts : List Nat) :
    ∀ s : OutputsState, s.pulse_state = false →
      (∀ t ∈ ts, 1000 * k ≤ (t - s.waveform_start_time) / 1000 ∧
        (t - s.waveform_start_time) / 1000 < 1000 * (k + 1) ∧
        500 ≤ (t - s.waveform_start_time) / 1000 - 1000 * k) →
      countPulseDrives (squareWaveRun s ts).2 = 0 := by
  induction ts with
  | nil => intro s _ _; rfl
  | cons t ts ih =>
      intro s hps hall
      obtain ⟨h1, h2, h3⟩ := hall t (List.mem_cons_self t ts)
      have hsq : squareHigh (wavePhase (t - s.waveform_start_time)) = false := by
        simp only [squareHigh, wavePhase, WAVEFORM_PERIOD_MS, decide_eq_false_iff_not]
        omega
      have hstep : generate_square_wave t s = (s, []) := by
        rw [generate_square_wave_eq, if_pos (by rw [hsq, hps])]
      simp only [squareWaveRun, hstep, List.nil_append]
      exact ih s hps (fun u hu => hall u (List.mem_cons_of_mem t hu))

/-- Within one period, a run starting with the pulse already high
drives at most once (the single high-to-low transition). -/
theorem squareRun_high_le_one (k : Nat) (ts : List Nat) :
    ∀ s : OutputsState, s.pulse_state = true →
      ts.Sorted (· ≤ ·) →
      (∀ t ∈ ts, 1000 * k ≤ (t - s.waveform_start_time) / 1000 ∧
        (t - s.waveform_start_time) / 1000 < 1000 * (k + 1)) →
      countPulseDrives (squareWaveRun s ts).2 ≤ 1 := by
  induction ts with
  | nil => intro s _ _ _; exact Nat.zero_le 1
  | cons t ts ih =>
      intro s hps hsort hall
      rw [List.sorted_cons] at hsort
      obtain ⟨h1, h2⟩ := hall t (List.mem_cons_self t ts)
      by_cases hsq : squareHigh (wavePhase (t - s.waveform_start_time)) = true
      · have hstep : generate_square_wave t s = (s, []) := by
          rw [generate_square_wave_eq, if_pos (by rw [hsq, hps])]
        simp only [squareWaveRun, hstep, List.nil_append]
        exact ih s hps hsort.2 (fun u hu => hall u (List.mem_cons_of_mem t hu))
      · have hsq' : squareHigh (wavePhase (t - s.waveform_start_time)) = false := by
          simpa using hsq
        have hstep : generate_square_wave t s =
            ({ s with pulse_state := false },
             [Event.setPulse false, Event.outputPulsePrint]) := by
          rw [generate_square_wave_eq, if_neg (by rw [hsq', hps]; exact Bool.false_ne_true),
              hsq']
        have ht500 : 500 ≤ (t - s.waveform_start_time) / 1000 - 1000 * k := by
          simp only [squareHigh, wavePhase, WAVEFORM_PERIOD_MS,
            decide_eq_false_iff_not] at hsq'
          omega
        have hmono : ∀ u, t ≤ u →
            (t - s.waveform_start_time) / 1000 ≤ (u - s.waveform_start_time) / 1000 :=
          fun u hu => Nat.div_le_div_right (Nat.sub_le_sub_right hu _)
        have hrest : countPulseDrives
            (squareWaveRun { s with pulse_state := false } ts).2 = 0 := by
          refine squareRun_low_zero k ts { s with pulse_state := false } rfl ?_
          intro u hu
          have hm := hmono u (hsort.1 u hu)
          have := hall u (List.mem_cons_of_mem t hu)
          simp only at this ⊢
          omega
        simp only [squareWaveRun, hstep, countPulseDrives_append, hrest]
        rfl

/-- Claim C4: the digital square waveform is high exactly when the
phase (elapsed_ms mod 1000) is below 500 ms; the pulse sink is
re-driven only when the computed state differs from the previously
driven state; and over any monotone sequence of poll times within one
period at most two pulse drives occur. -/
theorem square_wave_semantics (now : Nat) (s : OutputsState) :
    (squareHigh (wavePhase (now - s.waveform_start_time)) = true ↔
      ((now - s.waveform_start_time) / 1000) % 1000 < 500) ∧
    (generate_square_wave now s =
      if squareHigh (wavePhase (now - s.waveform_start_time)) = s.pulse_state
      then (s, [])
      else ({ s with pulse_state := squareHigh (wavePhase (now - s.waveform_start_time)) },
            [Event.setPulse (squareHigh (wavePhase (now - s.waveform_start_time))),
             Event.outputPulsePrint])) ∧
    (∀ (k : Nat) (ts : List Nat), ts.Sorted (· ≤ ·) →
      (∀ t ∈ ts, 1000 * k ≤ (t - s.waveform_start_time) / 1000 ∧
        (t - s.waveform_start_time) / 1000 < 1000 * (k + 1)) →
      countPulseDrives (squareWaveRun s ts).2 ≤ 2) := by
  refine ⟨?_, generate_square_wave_eq now s, ?_⟩
  · simp [squareHigh, wavePhase, WAVEFORM_PERIOD_MS]
  · intro k ts hsort hall
    by_cases hps : s.pulse_state = true
    · exact le_trans (squareRun_high_le_one k ts s hps hsort hall) (by omega)
    · have hps' : s.pulse_state = false := by
        cases h : s.pulse_state
        · rfl
        · exact absurd h hps
      clear hps
      induction ts generalizing s with
      | nil => exact Nat.zero_le 2
      | cons t ts ih =>
          rw [List.sorted_cons] at hsort
          obtain ⟨h1, h2⟩ := hall t (List.mem_cons_self t ts)
          by_cases hsq : squareHigh (wavePhase (t - s.waveform_start_time)) = true
          · have hstep : generate_square_wave t s =
                ({ s with pulse_state := true },
                 [Event.setPulse true, Event.outputPulsePrint]) := by
              rw [generate_square_wave_eq, if_neg (by simp [hsq, hps']), hsq]
            have hrest : countPulseDrives
                (squareWaveRun { s with pulse_state := true } ts).2 ≤ 1 := by
              refine squareRun_high_le_one k ts { s with pulse_state := true } rfl hsort.2 ?_
              intro u hu
              have := hall u (List.mem_cons_of_mem t hu)
              simpa using this
            simp only [squareWaveRun, hstep, countPulseDrives_append]
            have hone : countPulseDrives [Event.setPulse true, Event.outputPulsePrint] = 1 :=
              rfl
            omega
          · have hsq' : squareHigh (wavePhase (t - s.waveform_start_time)) = false := by
              simpa using hsq
            have hstep : generate_square_wave t s = (s, []) := by
              rw [generate_square_wave_eq, if_pos (by rw [hsq', hps'])]
            simp only [squareWaveRun, hstep, List.nil_append]
            exact ih s hsort.2 (fun u hu => hall u (List.mem_cons_of_mem t hu)) hps'

/-- Witness for `square_wave_semantics`: two polls of one period, one
in each half, drive at most twice. -/
theorem square_wave_semantics_witness :
    countPulseDrives (squareWaveRun
      ⟨SelectedOutput.PULSE, false, 0, 0, false, 0⟩ [0, 600000]).2 ≤ 2 :=
  (square_wave_semantics 0 ⟨SelectedOutput.PULSE, false, 0, 0, false, 0⟩).2.2 0
    [0, 600000] (by decide) (by decide)

/-- The input-testing render never changes the controller state. -/
theorem handle_input_testing_current_state (env : Env) (d : DiagnosticsState) :
    (handle_input_testing env d).1.current_state = d.current_state := by
  simp only [handle_input_testing]
  split_ifs <;> rfl

/-- The default pot/button render never changes the controller state. -/
theorem update_leds_current_state (env : Env) (d : DiagnosticsState) :
    (update_leds_from_pots_and_buttons env d).1.current_state = d.current_state := by
  simp only [update_leds_from_pots_and_buttons]
  split_ifs <;> rfl

/-- Interactive mode never changes the controller state. -/
theorem interactive_mode_current_state (env : Env) (d : DiagnosticsState) :
    (interactive_mode env d).1.current_state = d.current_state := by
  simp only [interactive_mode]
  split_ifs <;>
    simp [handle_input_testing_current_state, update_leds_current_state]

/-- Claim C7: the controller only ever moves forward through
LED_STARTUP_ANIMATION, LED_BRIGHTNESS_TEST, INTERACTIVE_MODE: one step
of `update` never decreases the state rank, never skips from the
startup animation directly to interactive mode, only leaves the startup
animation after its third iteration, only enters interactive mode after
the brightness ladder has completed on the last LED, and interactive
mode is absorbing. -/
theorem controller_state_progression (env : Env) (d : DiagnosticsState) :
    DiagState.rank d.current_state ≤ DiagState.rank (update env d).1.current_state ∧
    (d.current_state = DiagState.LED_STARTUP_ANIMATION →
      (update env d).1.current_state ≠ DiagState.INTERACTIVE_MODE ∧
      ((update env d).1.current_state = DiagState.LED_BRIGHTNESS_TEST →
        3 ≤ d.startup_animation_count + 1)) ∧
    (d.current_state = DiagState.LED_BRIGHTNESS_TEST →
      ((update env d).1.current_state = DiagState.INTERACTIVE_MODE →
        NO_OF_LEDS ≤ d.current_led + 1 ∧
        NUM_BRIGHTNESS_LEVELS ≤ d.current_brightness_step + 1)) ∧
    (d.current_state = DiagState.INTERACTIVE_MODE →
      (update env d).1.current_state = DiagState.INTERACTIVE_MODE) := by
  cases hd : d.current_state
  case LED_STARTUP_ANIMATION =>
    simp only [update, hd, test_led_startup_animation]
    split_ifs <;> simp_all [DiagState.rank]
  case LED_BRIGHTNESS_TEST =>
    simp only [update, hd, test_led_brightness]
    split_ifs <;> simp_all [DiagState.rank]
  case INTERACTIVE_MODE =>
    have hint := interactive_mode_current_state env d
    simp only [update, hd]
    rw [hd] at hint
    simp_all [DiagState.rank]

/-- Witness for `controller_state_progression`: a startup-animation
step never lands in interactive mode. -/
theorem controller_state_progression_witness :
    (update ⟨2000000, false, false, 0, 0, 0, 2048, 2048, false⟩
      ⟨DiagState.LED_STARTUP_ANIMATION, 0, 0, 0, 0, false, 255, false,
       ⟨SelectedInput.NONE, 0, 0, false, false⟩,
       ⟨SelectedOutput.NONE, false, 0, 0, false, 0⟩⟩).1.current_state ≠
      DiagState.INTERACTIVE_MODE :=
  ((controller_state_progression ⟨2000000, false, false, 0, 0, 0, 2048, 2048, false⟩
    ⟨DiagState.LED_STARTUP_ANIMATION, 0, 0, 0, 0, false, 255, false,
     ⟨SelectedInput.NONE, 0, 0, false, false⟩,
     ⟨SelectedOutput.NONE, false, 0, 0, false, 0⟩⟩).2.1 rfl).1

/-- An event is neither the summary notification nor the
selection-change notification. -/
def Event.isQuiet (e : Event) : Prop :=
  e.isSummary = false ∧ e.isSelectionNotice = false

/-- Event lists whose members are all quiet contribute nothing to
either notification count. -/
theorem quiet_counts (l : List Event) (h : ∀ e ∈ l, Event.isQuiet e) :
    l.countP Event.isSummary = 0 ∧ l.countP Event.isSelectionNotice = 0 :=
  ⟨List.countP_eq_zero.mpr (fun e he => by simp [(h e he).1]),
   List.countP_eq_zero.mpr (fun e he => by simp [(h e he).2])⟩

/-- The LED bar render is quiet. -/
theorem ledBar_quiet (n : Nat) : ∀ e ∈ ledBar n, Event.isQuiet e := by
  intro e he
  simp only [ledBar, List.mem_map, List.mem_range] at he
  obtain ⟨i, -, rfl⟩ := he
  split_ifs <;> exact ⟨rfl, rfl⟩

/-- Triangle wave generation is quiet. -/
theorem generate_triangle_wave_quiet (ch : Channel) (now : Nat) (s : OutputsState) :
    ∀ e ∈ (generate_triangle_wave ch now s).2, Event.isQuiet e := by
  simp only [generate_triangle_wave]
  split_ifs <;> intro e he <;>
    simp only [List.mem_cons, List.not_mem_nil, or_false] at he <;>
    first
      | exact he.elim
      | (rcases he with rfl | rfl <;> exact ⟨rfl, rfl⟩)
      | (rcases he with rfl; exact ⟨rfl, rfl⟩)

/-- Square wave generation is quiet. -/
theorem generate_square_wave_quiet (now : Nat) (s : OutputsState) :
    ∀ e ∈ (generate_square_wave now s).2, Event.isQuiet e := by
  simp only [generate_square_wave]
  split_ifs <;> intro e he <;>
    simp only [List.mem_cons, List.not_mem_nil, or_false] at he <;>
    first
      | exact he.elim
      | (rcases he with rfl | rfl <;> exact ⟨rfl, rfl⟩)
      | (rcases he with rfl; exact ⟨rfl, rfl⟩)

/-- Waveform generation in `Outputs::update` is quiet. -/
theorem outputs_update_quiet (now : Nat) (s : OutputsState) :
    ∀ e ∈ (outputs_update now s).2, Event.isQuiet e := by
  cases hsel : s.selected_output <;> simp only [outputs_update, hsel]
  case NONE => intro e he; cases he
  case AUDIO_A => exact generate_triangle_wave_quiet Channel.A now s
  case AUDIO_B => exact generate_triangle_wave_quiet Channel.B now s
  case PULSE => exact generate_square_wave_quiet now s

/-- Selecting an input without the print flag emits no notification at
all. -/
theorem set_selected_input_silent (sel : SelectedInput) (now : Nat) (s : InputsState) :
    (set_selected_input sel false now s).2 = [] := by
  rcases eq_or_ne sel s.selected_input with h | h <;> simp [set_selected_input, h]

/-- Selecting an output without the print flag emits only quiet output
actions. -/
theorem set_selected_output_silent_quiet (sel : SelectedOutput) (now : Nat)
    (s : OutputsState) :
    ∀ e ∈ (set_selected_output sel false now s).2, Event.isQuiet e := by
  rcases eq_or_ne sel s.selected_output with h | h <;>
    simp only [set_selected_output, stop_all_outputs, h, ne_eq, not_true_eq_false,
      if_false, ite_not] <;>
    intro e he <;>
    simp only [List.mem_append, List.mem_cons, List.not_mem_nil, or_false,
      Bool.false_eq_true, if_false, ite_self] at he <;>
    first
      | exact he.elim
      | (rcases he with rfl | rfl | rfl <;> exact ⟨rfl, rfl⟩)
      | (rcases he with rfl | rfl <;> exact ⟨rfl, rfl⟩)
      | (rcases he with rfl; exact ⟨rfl, rfl⟩)
      | (rcases he with (rfl | rfl | rfl) | h2 <;>
          first | exact ⟨rfl, rfl⟩ | exact h2.elim)

/-- Coupling changes are quiet (the coupling printf is neither the
summary nor a selection-change notification). -/
theorem set_ac_coupling_quiet (b : Bool) (s : OutputsState) :
    ∀ e ∈ (set_ac_coupling b s).2, Event.isQuiet e := by
  simp only [set_ac_coupling]
  split_ifs <;> intro e he <;>
    simp only [List.mem_cons, List.not_mem_nil, or_false] at he <;>
    first
      | exact he.elim
      | (rcases he with rfl | rfl | rfl <;> exact ⟨rfl, rfl⟩)
      | (rcases he with rfl; exact ⟨rfl, rfl⟩)

/-- The status display render is quiet. -/
theorem show_status_display_quiet (i : InputsState) (o : OutputsState) :
    ∀ e ∈ show_status_display i o, Event.isQuiet e := by
  intro e he
  simp only [show_status_display, List.mem_cons, List.not_mem_nil, or_false] at he
  rcases he with rfl | rfl | rfl | rfl | rfl | rfl <;> split_ifs <;> exact ⟨rfl, rfl⟩

/-- Reading the VU meter emits only quiet diagnostics. -/
theorem get_vu_meter_level_quiet (ra rb now : Nat) (s : InputsState) :
    ∀ e ∈ (get_vu_meter_level ra rb now s).2.2, Event.isQuiet e := by
  simp only [get_vu_meter_level]
  split_ifs <;> intro e he <;>
    simp only [List.mem_cons, List.not_mem_nil, or_false] at he <;>
    first
      | exact he.elim
      | (rcases he with rfl; exact ⟨rfl, rfl⟩)

/-- Reading the pulse input emits only quiet diagnostics. -/
theorem is_pulse_high_quiet (b : Bool) (s : InputsState) :
    ∀ e ∈ (is_pulse_high b s).2.1, Event.isQuiet e := by
  simp only [is_pulse_high]
  split_ifs <;> intro e he <;>
    simp only [List.mem_cons, List.not_mem_nil, or_false] at he <;>
    first
      | exact he.elim
      | (rcases he with rfl; exact ⟨rfl, rfl⟩)

/-- The input-testing render is quiet. -/
theorem handle_input_testing_quiet (env : Env) (d : DiagnosticsState) :
    ∀ e ∈ (handle_input_testing env d).2, Event.isQuiet e := by
  simp only [handle_input_testing]
  split_ifs <;> intro e he <;>
    first
      | exact absurd he (List.not_mem_nil e)
      | exact get_vu_meter_level_quiet env.raw_adc_a env.raw_adc_b env.now d.inputs e he
      | exact is_pulse_high_quiet env.pulse_in d.inputs e he
      | (rcases List.mem_append.mp he with h | h <;>
          first
            | exact get_vu_meter_level_quiet env.raw_adc_a env.raw_adc_b env.now d.inputs e h
            | exact ledBar_quiet _ e h
            | exact is_pulse_high_quiet env.pulse_in d.inputs e h
            | (simp only [List.mem_cons, List.not_mem_nil, or_false] at h
               rcases h with rfl; exact ⟨rfl, rfl⟩))

/-- The default pot/button render is quiet. -/
theorem update_leds_quiet (env : Env) (d : DiagnosticsState) :
    ∀ e ∈ (update_leds_from_pots_and_buttons env d).2, Event.isQuiet e := by
  simp only [update_leds_from_pots_and_buttons]
  split_ifs <;> intro e he <;>
    first
      | exact absurd he (List.not_mem_nil e)
      | exact ledBar_quiet _ e he
      | (simp only [List.mem_cons, List.not_mem_nil, or_false] at he
         rcases he with rfl
         exact ⟨rfl, rfl⟩)

/-- Quietness is preserved by list append. -/
theorem quiet_append (a b : List Event) (ha : ∀ e ∈ a, Event.isQuiet e)
    (hb : ∀ e ∈ b, Event.isQuiet e) : ∀ e ∈ a ++ b, Event.isQuiet e := by
  intro e he
  rcases List.mem_append.mp he with h | h
  exacts [ha e h, hb e h]

/-- The guarded input-selection update in selection mode is quiet. -/
theorem input_select_branch_quiet (c : Prop) [Decidable c] (sel : SelectedInput)
    (now : Nat) (x : InputsState) :
    ∀ e ∈ (if c then set_selected_input sel false now x else (x, [])).2,
      Event.isQuiet e := by
  split_ifs with h
  · rw [set_selected_input_silent]
    intro e he; exact absurd he (List.not_mem_nil e)
  · intro e he; exact absurd he (List.not_mem_nil e)

/-- The guarded output-selection update in selection mode is quiet. -/
theorem output_select_branch_quiet (c : Prop) [Decidable c] (sel : SelectedOutput)
    (now : Nat) (x : OutputsState) :
    ∀ e ∈ (if c then set_selected_output sel false now x else (x, [])).2,
      Event.isQuiet e := by
  split_ifs with h
  · exact set_selected_output_silent_quiet sel now x
  · intro e he; exact absurd he (List.not_mem_nil e)

/-- The guarded coupling update in selection mode is quiet. -/
theorem coupling_branch_quiet (c : Prop) [Decidable c] (p2 : Nat) (x : OutputsState) :
    ∀ e ∈ (if c then update_coupling_from_pot p2 x else (x, [])).2,
      Event.isQuiet e := by
  split_ifs with h
  · exact set_ac_coupling_quiet _ x
  · intro e he; exact absurd he (List.not_mem_nil e)

/-- Claim C8: in interactive mode, a cycle on the release edge (both
buttons up now, both held on the previous cycle) emits exactly one
configuration summary notification and clears the display; while both
buttons are held no selection-change notification and no summary is
emitted; and a cycle with no release edge emits no summary. -/
theorem interactive_release_edge_summary (env : Env) (d : DiagnosticsState) :
    ((env.button1 && env.button2) = false → d.both_buttons_held = true →
      ((interactive_mode env d).2).countP Event.isSummary = 1 ∧
      Event.ledOffAll ∈ (interactive_mode env d).2) ∧
    ((env.button1 && env.button2) = true →
      ((interactive_mode env d).2).countP Event.isSelectionNotice = 0 ∧
      ((interactive_mode env d).2).countP Event.isSummary = 0) ∧
    ((env.button1 && env.button2) = false → d.both_buttons_held = false →
      ((interactive_mode env d).2).countP Event.isSummary = 0) := by
  refine ⟨?_, ?_, ?_⟩
  · intro hb hheld
    have hevents : ∃ post : List Event, (∀ e ∈ post, Event.isQuiet e) ∧
        (interactive_mode env d).2 =
          ((outputs_update env.now d.outputs).2 ++
            [Event.summaryNotice, Event.ledOffAll]) ++ post := by
      simp only [interactive_mode]
      rw [if_neg (by simp [hb]), if_pos (show _ = true from hheld)]
      by_cases hsel :
          d.inputs.selected_input ≠ SelectedInput.NONE
      · rw [if_pos (show _ ≠ SelectedInput.NONE from hsel)]
        exact ⟨_, handle_input_testing_quiet env _, rfl⟩
      · rw [if_neg (show ¬ _ ≠ SelectedInput.NONE from hsel)]
        exact ⟨_, update_leds_quiet env _, rfl⟩
    obtain ⟨post, hpost, heq⟩ := hevents
    rw [heq]
    constructor
    · rw [List.countP_append, List.countP_append,
        (quiet_counts _ (outputs_update_quiet env.now d.outputs)).1,
        (quiet_counts _ hpost).1]
      decide
    · exact List.mem_append_left _ (List.mem_append_right _ (by simp))
  · intro hb
    have hq : ∀ e ∈ (interactive_mode env d).2, Event.isQuiet e := by
      simp only [interactive_mode]
      rw [if_pos (show _ = true from hb)]
      exact quiet_append _ _ (quiet_append _ _ (quiet_append _ _ (quiet_append _ _
        (outputs_update_quiet _ _) (input_select_branch_quiet _ _ _ _))
        (output_select_branch_quiet _ _ _ _)) (coupling_branch_quiet _ _ _))
        (show_status_display_quiet _ _)
    exact ⟨(quiet_counts _ hq).2, (quiet_counts _ hq).1⟩
  · intro hb hheld
    have hq : ∀ e ∈ (interactive_mode env d).2, Event.isQuiet e := by
      simp only [interactive_mode]
      rw [if_neg (by simp [hb]), hheld, if_neg Bool.false_ne_true]
      by_cases hsel :
          d.inputs.selected_input ≠ SelectedInput.NONE
      · rw [if_pos hsel]
        exact quiet_append _ _ (quiet_append _ _ (outputs_update_quiet _ _)
          (fun e he => absurd he (List.not_mem_nil e)))
          (handle_input_testing_quiet env _)
      · rw [if_neg hsel]
        exact quiet_append _ _ (quiet_append _ _ (outputs_update_quiet _ _)
          (fun e he => absurd he (List.not_mem_nil e)))
          (update_leds_quiet env _)
    exact (quiet_counts _ hq).1

/-- Witness for `interactive_release_edge_summary`: a concrete release
edge emits exactly one summary. -/
theorem interactive_release_edge_summary_witness :
    ((interactive_mode ⟨0, false, false, 0, 0, 0, 2048, 2048, false⟩
      ⟨DiagState.INTERACTIVE_MODE, 6, 0, 0, 3, true, 0, false,
       ⟨SelectedInput.NONE, 0, 0, false, false⟩,
       ⟨SelectedOutput.NONE, false, 0, 0, false, 0⟩⟩).2).countP Event.isSummary = 1 :=
  ((interactive_release_edge_summary ⟨0, false, false, 0, 0, 0, 2048, 2048, false⟩
    ⟨DiagState.INTERACTIVE_MODE, 6, 0, 0, 3, true, 0, false,
     ⟨SelectedInput.NONE, 0, 0, false, false⟩,
     ⟨SelectedOutput.NONE, false, 0, 0, false, 0⟩⟩).1 rfl rfl).1

end BrainDiag
